import Mathlib

/-!
Shallow embedding of the reset/watchdog subsystem of `reset_script.py`
(GameServer repository): the global reset state, the seed-script splitting,
the `reset_database` routine with its exception-handling structure, the
`/health` and `/reset` HTTP handlers, and the startup retry loop
`wait_for_database`.

Modelling conventions:
- Python strings are modelled as `String`; the string primitives used by the
  script (`str.split`, `str.strip`, `str.startswith`) are given executable
  character-list implementations with the same semantics, so concrete runs
  evaluate inside the kernel.
- Timestamps are abstract clock readings of type `Nat`; `datetime.isoformat`
  is modelled by a rendering to `String`.
- The database collaborator (pymysql) is modelled by an environment `Env`
  recording, for one invocation, the seed-file content and the outcome of
  each driver call (connect, per-statement execute, commit, close): either
  normal return or a raised exception. `pymysql.Error` and other exceptions
  are distinguished because the statement loop catches only the former.
- The reset mutex serialises `reset_database` against itself, so one
  invocation is modelled as a sequential function from state to state.
-/

namespace GameServer

/-- Default value of the `INIT_SQL_PATH` configuration (line 30 of
`reset_script.py`). -/
def INIT_SQL_PATH : String := "/docker-entrypoint-initdb.d/init.sql"

/-- Default value of the `RESET_INTERVAL` configuration, in seconds
(line 29 of `reset_script.py`). -/
def RESET_INTERVAL : Nat := 900

/-- The process-wide reset state: globals `last_reset_time` and
`reset_count` (lines 51 and 52 of `reset_script.py`). -/
structure ResetState where
  lastResetTime : Option Nat
  resetCount : Nat
  deriving Repr, DecidableEq

/-- The state at process start: `last_reset_time = None`, `reset_count = 0`
(lines 51 and 52). -/
def initialState : ResetState := { lastResetTime := none, resetCount := 0 }

/-- Python whitespace characters removed by `str.strip()` with no argument. -/
def pyIsSpace (c : Char) : Bool :=
  c == ' ' || c == '\t' || c == '\n' || c == '\r' || c == '\x0b' || c == '\x0c'

/-- Remove leading and trailing whitespace from a character list. -/
def trimChars (l : List Char) : List Char :=
  ((l.dropWhile pyIsSpace).reverse.dropWhile pyIsSpace).reverse

/-- Python `str.strip()`. -/
def pyStrip (s : String) : String := String.mk (trimChars s.toList)

/-- Python `str.split(sep)` for a one-character separator, on character
lists: every occurrence of the separator ends a segment, so n separators
yield n + 1 segments (possibly empty ones). -/
def splitCharAux (sep : Char) : List Char → List Char → List (List Char)
  | [], acc => [acc.reverse]
  | c :: rest, acc =>
    if c == sep then acc.reverse :: splitCharAux sep rest []
    else splitCharAux sep rest (c :: acc)

/-- Python `s.split(sep)` for a one-character separator. -/
def pySplit (sep : Char) (s : String) : List String :=
  (splitCharAux sep s.toList []).map String.mk

/-- Python `s.startswith('--')`. -/
def startsDashDash (s : String) : Bool :=
  match s.toList with
  | '-' :: '-' :: _ => true
  | _ => false

/-- Line 118 of `reset_script.py`:
`statements = [stmt.strip() for stmt in sql_script.split(';') if stmt.strip()]`
— split the full text on the semicolon, strip whitespace, keep the
non-empty results. -/
def splitStatements (script : String) : List String :=
  ((pySplit ';' script).map pyStrip).filter (fun s => s != "")

/-- A Python exception raised by a database call: either a `pymysql.Error`
or any other exception. The distinction matters because the statement loop
catches only `pymysql.Error` (line 129). -/
inductive PyErr where
  | mysql (msg : String)
  | other (msg : String)
  deriving Repr, DecidableEq

/-- Outcome of one call into the database driver: normal return or a raised
exception. -/
inductive DbOutcome where
  | ok
  | raise (e : PyErr)
  deriving Repr, DecidableEq

/-- One invocation of `reset_database` as seen from outside: the seed-file
content (`none` when `os.path.exists` is false at line 98), the outcome of
`pymysql.connect` (line 107), of `cursor.execute` for the i-th enumerated
statement (line 128), of `connection.commit` (line 133) and of
`connection.close` (line 146), plus the clock reading when the call starts
and the value `datetime.now()` returns at the state update (line 136). -/
structure Env where
  seedFile : Option String
  connect : DbOutcome
  exec : Nat → String → DbOutcome
  commit : DbOutcome
  close : DbOutcome
  startTime : Nat
  now : Nat

/-- Record of one pass through the statement loop (lines 122 to 131):
statements successfully executed, statements whose `pymysql.Error` was
logged and skipped, and the exception, if any, that escaped the loop
(only a non-`pymysql.Error` from `cursor.execute` can). -/
structure StmtLog where
  executed : List String
  skipped : List String
  err : Option PyErr
  deriving Repr, DecidableEq

/-- Lines 122 to 131: iterate over the enumerated statements (1-based, as
`enumerate(statements, 1)`); a statement starting with the comment marker
(or empty) is passed over by `continue`; `cursor.execute` is attempted on
the rest, a `pymysql.Error` is logged and the loop continues, while any
other exception aborts the loop. -/
def runStatements (env : Env) : Nat → List String → StmtLog
  | _, [] => { executed := [], skipped := [], err := none }
  | idx, s :: rest =>
    if startsDashDash s || s == "" then
      runStatements env (idx + 1) rest
    else
      match env.exec idx s with
      | .ok =>
        let r := runStatements env (idx + 1) rest
        { r with executed := s :: r.executed }
      | .raise (.mysql _) =>
        let r := runStatements env (idx + 1) rest
        { r with skipped := s :: r.skipped }
      | .raise (.other m) =>
        { executed := [], skipped := [], err := some (PyErr.other m) }

/-- The statement-loop record of one `reset_database` invocation (empty
when the seed file is absent, since the loop is never reached). -/
def resetLog (env : Env) : StmtLog :=
  match env.seedFile with
  | none => { executed := [], skipped := [], err := none }
  | some script => runStatements env 1 (splitStatements script)

/-- Failure messages of the two outer exception handlers (lines 148 to 156):
`except pymysql.Error` and `except Exception`. -/
def errMsg : PyErr → String
  | .mysql m => "MySQL error during reset: " ++ m
  | .other m => "Unexpected error during reset: " ++ m

/-- The body of `reset_database` (lines 93 to 146) with the two outer
exception handlers removed: any exception reaching the outer level
propagates as `Except.error`. The inner try/finally around the cursor work
is kept: an exception raised by `connection.close` in the `finally` clause
(line 146) replaces whatever result or exception was in flight; state
updates already performed (lines 136 and 137) are not rolled back. -/
def reset_database_body (env : Env) (s : ResetState) :
    Except PyErr (Bool × String) × ResetState :=
  match env.seedFile with
  | none => (Except.ok (false, "init.sql not found at " ++ INIT_SQL_PATH), s)
  | some script =>
    match env.connect with
    | .raise e => (Except.error e, s)
    | .ok =>
      match (runStatements env 1 (splitStatements script)).err with
      | some e =>
        match env.close with
        | .raise e2 => (Except.error e2, s)
        | .ok => (Except.error e, s)
      | none =>
        match env.commit with
        | .raise e =>
          match env.close with
          | .raise e2 => (Except.error e2, s)
          | .ok => (Except.error e, s)
        | .ok =>
          let s2 : ResetState :=
            { lastResetTime := some env.now, resetCount := s.resetCount + 1 }
          match env.close with
          | .raise e2 => (Except.error e2, s2)
          | .ok =>
            (Except.ok (true, "Database reset completed successfully (Reset #"
              ++ toString s2.resetCount ++ ")"), s2)

/-- `reset_database` (lines 85 to 156): returns a (success, message) pair
and the updated global state. Written out with every handler inline: the
missing-seed check returns failure (line 101); a connect exception falls to
the outer handlers (lines 148 to 156); an exception escaping the statement
loop or raised by commit passes through the `finally` close and is
converted; on the success path the state is updated (lines 136 and 137)
before the `finally` close runs, so a close exception still yields a
failure pair while the state keeps the update. -/
def reset_database (env : Env) (s : ResetState) : (Bool × String) × ResetState :=
  match env.seedFile with
  | none => ((false, "init.sql not found at " ++ INIT_SQL_PATH), s)
  | some script =>
    match env.connect with
    | .raise e => ((false, errMsg e), s)
    | .ok =>
      match (runStatements env 1 (splitStatements script)).err with
      | some e =>
        match env.close with
        | .raise e2 => ((false, errMsg e2), s)
        | .ok => ((false, errMsg e), s)
      | none =>
        match env.commit with
        | .raise e =>
          match env.close with
          | .raise e2 => ((false, errMsg e2), s)
          | .ok => ((false, errMsg e), s)
        | .ok =>
          let s2 : ResetState :=
            { lastResetTime := some env.now, resetCount := s.resetCount + 1 }
          match env.close with
          | .raise e2 => ((false, errMsg e2), s2)
          | .ok =>
            ((true, "Database reset completed successfully (Reset #"
              ++ toString s2.resetCount ++ ")"), s2)

/-- Rendering of a timestamp, modelling `datetime.isoformat()` on the
abstract clock values. -/
def isoformat (t : Nat) : String := toString t

/-- Response body of the HTTP handlers in `reset_script.py` that report
reset results: status, message, and the optional `reset_count` and
`timestamp` fields that only the success branch includes (lines 216 to
226). -/
structure ResetResponse where
  status : String
  message : String
  reset_count : Option Nat
  timestamp : Option String
  deriving Repr, DecidableEq

/-- `manual_reset` (lines 201 to 226), the handler of `POST /reset`:
invokes `reset_database` once and renders its result; the Python code binds
`success, message = reset_database()` once, which a pure model expresses by
repeated projections of the same application. The success branch reads the
updated globals `reset_count` (line 219) and `last_reset_time.isoformat()`
(line 220); the failure branch returns status "error" with code 500. -/
def manual_reset (env : Env) (s : ResetState) :
    (ResetResponse × Nat) × ResetState :=
  if (reset_database env s).1.1 then
    (({ status := "success",
        message := (reset_database env s).1.2,
        reset_count := some (reset_database env s).2.resetCount,
        timestamp := (reset_database env s).2.lastResetTime.map isoformat }, 200),
      (reset_database env s).2)
  else
    (({ status := "error",
        message := (reset_database env s).1.2,
        reset_count := none,
        timestamp := none }, 500),
      (reset_database env s).2)

/-- Response body of `GET /health` (lines 191 to 198). -/
structure HealthResponse where
  status : String
  service : String
  last_reset : String
  reset_count : Nat
  seconds_since_last_reset : Option Int
  reset_interval_seconds : Nat
  deriving Repr, DecidableEq

/-- `health_check` (lines 182 to 198), the handler of `GET /health`: reads
the globals and the clock, never writes them, and always answers 200. -/
def health_check (now : Nat) (s : ResetState) :
    (HealthResponse × Nat) × ResetState :=
  (({ status := "healthy",
      service := "CTF Database Reset Service",
      last_reset :=
        match s.lastResetTime with
        | some t => isoformat t
        | none => "Never",
      reset_count := s.resetCount,
      seconds_since_last_reset :=
        s.lastResetTime.map (fun t => (now : Int) - (t : Int)),
      reset_interval_seconds := RESET_INTERVAL }, 200),
    s)

/-- `wait_for_database` loop body (lines 65 to 79) over an explicit list of
attempt numbers: the first successful `pymysql.connect` returns
immediately; a failed attempt sleeps `retry_delay` seconds when it is not
the last one (line 78). Returns (success, attempts made, seconds slept). -/
def wait_go (connectOk : Nat → Bool) (retry_delay max_retries : Nat) :
    List Nat → Bool × Nat × Nat
  | [] => (false, 0, 0)
  | a :: rest =>
    if connectOk a then (true, 1, 0)
    else
      let r := wait_go connectOk retry_delay max_retries rest
      (r.1, r.2.1 + 1, r.2.2 + (if a < max_retries then retry_delay else 0))

/-- `wait_for_database` (lines 59 to 82) with its default parameters
`max_retries = 30` and `retry_delay = 2`, as called from `main`
(line 572): attempts are numbered 1 to 30. -/
def wait_for_database (connectOk : Nat → Bool) : Bool × Nat × Nat :=
  wait_go connectOk 2 30 (List.range' 1 30)

/-- Startup decision of `main` (lines 571 to 574): `sys.exit(1)` when
`wait_for_database` fails, modelled as `some 1`; `none` when startup
proceeds. -/
def main_startup (connectOk : Nat → Bool) : Option Nat :=
  if (wait_for_database connectOk).1 then none else some 1

/-- The segment characterization stated by the claims: the non-empty,
whitespace-trimmed, semicolon-delimited segments of the seed text that are
not comments (a comment segment starts with the marker). -/
def claimSegments (text : String) : List String :=
  (((pySplit ';' text).map pyStrip).filter (fun s => s != "")).filter
    (fun s => !(startsDashDash s))

/-- Modelled from the spec wording of the Seed Loader: lines beginning with
a comment marker are skipped BEFORE splitting on the delimiter; the
surviving lines are rejoined and then split, trimmed and filtered. This is
the order of operations the spec describes, to be compared with
`splitStatements`, the order the code implements. -/
def specSegments (text : String) : List String :=
  let keptLines := (pySplit '\n' text).filter (fun l => !(startsDashDash l))
  let joined := String.mk (List.intercalate ['\n'] (keptLines.map String.toList))
  ((pySplit ';' joined).map pyStrip).filter (fun s => s != "")

/-- The statements the loop actually attempts, as a predicate on segments:
line 124 skips a (stripped) segment that starts with the comment marker or
is empty; the rest reach `cursor.execute`. -/
def isExecutable (s : String) : Bool := !(startsDashDash s || s == "")

/-- Seconds slept by a sequence of failed attempts: `retry_delay` after
every failed attempt that is not the last scheduled one. -/
def sleepSum (d m : Nat) (l : List Nat) : Nat :=
  (l.map (fun a => if a < m then d else 0)).sum

/-- A seed file whose comment line shares its semicolon-delimited segment
with a real statement, run against an error-free database. -/
def cexEnv : Env :=
  { seedFile := some "-- comment\nSELECT 1;",
    connect := .ok,
    exec := fun _ _ => .ok,
    commit := .ok,
    close := .ok,
    startTime := 0,
    now := 3 }

/-- An error-free run on a one-statement seed file. -/
def envAllOk : Env :=
  { seedFile := some "SELECT 1;",
    connect := .ok,
    exec := fun _ _ => .ok,
    commit := .ok,
    close := .ok,
    startTime := 1,
    now := 5 }

/-- A run in which the seed file is absent. -/
def envNoSeed : Env :=
  { seedFile := none,
    connect := .ok,
    exec := fun _ _ => .ok,
    commit := .ok,
    close := .ok,
    startTime := 0,
    now := 0 }

/-- Statement outcomes for a run where the `USE db` statement raises a
`pymysql.Error` and every other statement succeeds. -/
def env4exec (_ : Nat) (st : String) : DbOutcome :=
  if st == "USE db" then DbOutcome.raise (PyErr.mysql "1044 access denied")
  else DbOutcome.ok

/-- A three-statement seed file whose middle statement (`USE db`) raises a
`pymysql.Error`; connect, commit and close all succeed. -/
def env4 : Env :=
  { seedFile := some "CREATE TABLE t (x INT);USE db;INSERT INTO t VALUES (1);",
    connect := .ok,
    exec := env4exec,
    commit := .ok,
    close := .ok,
    startTime := 0,
    now := 9 }

/-- A run where everything up to and including commit succeeds and only the
final `connection.close` in the `finally` clause raises. -/
def envCloseFail : Env :=
  { seedFile := some "SELECT 1;",
    connect := .ok,
    exec := fun _ _ => .ok,
    commit := .ok,
    close := .raise (.mysql "close failed"),
    startTime := 0,
    now := 7 }

/-- Helper: a successful `reset_database` run reaches lines 136 and 137, so
the returned state carries the new timestamp and the incremented counter. -/
lemma reset_success_inv (env : Env) (s : ResetState)
    (h : (reset_database env s).1.1 = true) :
    (reset_database env s).2 =
      { lastResetTime := some env.now, resetCount := s.resetCount + 1 } := by
  rcases hseed : env.seedFile with _ | script
  · simp [reset_database, hseed] at h
  · rcases hconn : env.connect with _ | e1
    · rcases herr : (runStatements env 1 (splitStatements script)).err with _ | e0
      · rcases hcom : env.commit with _ | e2
        · rcases hcl : env.close with _ | e3 <;> simp_all [reset_database]
        · rcases hcl : env.close with _ | e3 <;> simp_all [reset_database]
      · rcases hcl : env.close with _ | e3 <;> simp_all [reset_database]
    · simp [reset_database, hseed, hconn] at h

/-- Helper: when no statement raises a non-`pymysql.Error`, the loop never
aborts. -/
lemma runStatements_err_none (env : Env)
    (hexec : ∀ i st m, env.exec i st ≠ DbOutcome.raise (PyErr.other m)) :
    ∀ (idx : Nat) (l : List String), (runStatements env idx l).err = none := by
  intro idx l
  induction l generalizing idx with
  | nil => simp [runStatements]
  | cons s rest ih =>
    by_cases hc : (startsDashDash s || s == "") = true
    · simp only [runStatements]
      rw [if_pos hc]
      exact ih (idx + 1)
    · simp only [runStatements]
      rw [if_neg hc]
      rcases hx : env.exec idx s with _ | e
      · simpa using ih (idx + 1)
      · rcases e with m | m
        · simpa using ih (idx + 1)
        · exact absurd hx (hexec idx s m)

/-- Helper: when no statement raises a non-`pymysql.Error`, every statement
reaching `cursor.execute` ends up either executed or skipped, so the two
together count exactly the executable segments. -/
lemma runStatements_count (env : Env)
    (hexec : ∀ i st m, env.exec i st ≠ DbOutcome.raise (PyErr.other m)) :
    ∀ (idx : Nat) (l : List String),
      (runStatements env idx l).executed.length
        + (runStatements env idx l).skipped.length
        = (l.filter isExecutable).length := by
  intro idx l
  induction l generalizing idx with
  | nil => simp [runStatements]
  | cons s rest ih =>
    by_cases hc : (startsDashDash s || s == "") = true
    · have hp : ¬ isExecutable s = true := by simp [isExecutable, hc]
      rw [List.filter_cons_of_neg hp]
      simp only [runStatements]
      rw [if_pos hc]
      exact ih (idx + 1)
    · have hp : isExecutable s = true := by
        simp only [isExecutable]
        simp only [Bool.not_eq_true] at hc ⊢
        simp [hc]
      rw [List.filter_cons_of_pos hp]
      simp only [runStatements]
      rw [if_neg hc]
      rcases hx : env.exec idx s with _ | e
      · simp only [hx]
        have := ih (idx + 1)
        simp only [List.length_cons]
        omega
      · rcases e with m | m
        · simp only [hx]
          have := ih (idx + 1)
          simp only [List.length_cons]
          omega
        · exact absurd hx (hexec idx s m)

/-- Helper: in an error-free run the executed statements are exactly the
executable segments, in order. -/
lemma runStatements_executed_all_ok (env : Env)
    (hexec : ∀ i st, env.exec i st = DbOutcome.ok) :
    ∀ (idx : Nat) (l : List String),
      (runStatements env idx l).executed = l.filter isExecutable := by
  intro idx l
  induction l generalizing idx with
  | nil => simp [runStatements]
  | cons s rest ih =>
    by_cases hc : (startsDashDash s || s == "") = true
    · have hp : ¬ isExecutable s = true := by simp [isExecutable, hc]
      rw [List.filter_cons_of_neg hp]
      simp only [runStatements]
      rw [if_pos hc]
      exact ih (idx + 1)
    · have hp : isExecutable s = true := by
        simp only [isExecutable]
        simp only [Bool.not_eq_true] at hc ⊢
        simp [hc]
      rw [List.filter_cons_of_pos hp]
      simp only [runStatements]
      rw [if_neg hc]
      rw [hexec idx s]
      simp only []
      rw [ih (idx + 1)]

/-- Helper: on segments that are already non-empty, the loop skip condition
of line 124 coincides with the comment test alone. -/
lemma filter_noncomment (l : List String) :
    (l.filter (fun s => s != "")).filter isExecutable
      = (l.filter (fun s => s != "")).filter (fun s => !(startsDashDash s)) := by
  apply List.filter_congr
  intro x hx
  have hne : (x != "") = true := (List.mem_filter.mp hx).2
  have hxe : (x == "") = false := by
    rcases h : (x == "") with _ | _
    · rfl
    · simp [bne, h] at hne
  simp [isExecutable, hxe]

/-- Helper: when every attempt fails, the retry loop tries the whole list
and sleeps after every attempt but the last scheduled one. -/
lemma wait_go_all_fail (c : Nat → Bool) (d m : Nat) (l : List Nat)
    (h : ∀ a ∈ l, c a = false) :
    wait_go c d m l = (false, l.length, sleepSum d m l) := by
  induction l with
  | nil => simp [wait_go, sleepSum]
  | cons a rest ih =>
    have ha : c a = false := h a (by simp)
    have hr : ∀ b ∈ rest, c b = false := fun b hb => h b (by simp [hb])
    simp only [wait_go, ha, Bool.false_eq_true, if_false, ih hr, sleepSum,
      List.map_cons, List.sum_cons, List.length_cons]
    simp [Nat.add_comm]

/-- Helper: one successful attempt anywhere in the list makes the retry
loop succeed. -/
lemma wait_go_first_success (c : Nat → Bool) (d m : Nat) (l : List Nat)
    (h : ∃ a ∈ l, c a = true) : (wait_go c d m l).1 = true := by
  induction l with
  | nil => simp at h
  | cons a rest ih =>
    rcases h with ⟨b, hb, hcb⟩
    rcases List.mem_cons.mp hb with rfl | hbr
    · simp [wait_go, hcb]
    · by_cases ha : c a = true
      · simp [wait_go, ha]
      · have haf : c a = false := by simpa using ha
        simp [wait_go, haf, ih ⟨b, hbr, hcb⟩]

/-- C1, counterexample: the claim says lines beginning with a comment marker
are skipped BEFORE splitting. On the seed text "-- comment\nSELECT 1;" that
order (modelled by `specSegments`) yields the statement list
["SELECT 1"], but the code splits first (line 118) and then discards the
whole segment because its stripped text starts with the marker (line 124),
so it executes nothing: the executed statements differ from the set the
claim describes. -/
theorem comment_filter_order_counterexample :
    specSegments "-- comment\nSELECT 1;" = ["SELECT 1"]
    ∧ (resetLog cexEnv).executed = []
    ∧ (resetLog cexEnv).executed ≠ specSegments "-- comment\nSELECT 1;" :=
  ⟨by decide, by decide, by decide⟩

/-- C1, amended: for every seed text, in a run where every attempted
statement executes without error, the statements the Reset Executor
executes are exactly the non-empty, whitespace-trimmed, semicolon-delimited
segments of the full text that do not start with the comment marker — the
comment filter applies to segments AFTER splitting, not to lines before
splitting — and the number of executed statements equals the number of
those segments. -/
theorem executed_statements_characterization (env : Env) (text : String)
    (hseed : env.seedFile = some text)
    (hexec : ∀ i st, env.exec i st = DbOutcome.ok) :
    (resetLog env).executed = claimSegments text
    ∧ (resetLog env).executed.length = (claimSegments text).length := by
  have hlog : resetLog env = runStatements env 1 (splitStatements text) := by
    simp [resetLog, hseed]
  have h1 := runStatements_executed_all_ok env hexec 1 (splitStatements text)
  have h2 : (splitStatements text).filter isExecutable = claimSegments text := by
    unfold splitStatements claimSegments
    exact filter_noncomment _
  rw [hlog, h1, h2]
  exact ⟨rfl, rfl⟩

/-- C1, witness: the characterization applied to the concrete run on
"-- comment\nSELECT 1;". -/
theorem executed_statements_characterization_witness :
    (resetLog cexEnv).executed = claimSegments "-- comment\nSELECT 1;"
    ∧ (resetLog cexEnv).executed.length
        = (claimSegments "-- comment\nSELECT 1;").length :=
  executed_statements_characterization cexEnv "-- comment\nSELECT 1;" rfl
    (fun _ _ => rfl)

/-- C2: every invocation of `reset_database` that returns success leaves
`resetCount` exactly one greater than before the call and sets
`lastResetTime` to the clock reading of line 136, which is no earlier than
the time at which the call started (given that the clock does not run
backwards between the start of the call and the update). -/
theorem reset_success_updates_state (env : Env) (s : ResetState)
    (hclock : env.startTime ≤ env.now)
    (hsucc : (reset_database env s).1.1 = true) :
    (reset_database env s).2.resetCount = s.resetCount + 1
    ∧ (reset_database env s).2.lastResetTime = some env.now
    ∧ env.startTime ≤ env.now := by
  have h := reset_success_inv env s hsucc
  rw [h]
  exact ⟨rfl, rfl, hclock⟩

/-- C2, witness: the theorem applied to an error-free run. -/
theorem reset_success_updates_state_witness :
    (reset_database envAllOk initialState).2.resetCount
        = initialState.resetCount + 1
    ∧ (reset_database envAllOk initialState).2.lastResetTime
        = some envAllOk.now
    ∧ envAllOk.startTime ≤ envAllOk.now :=
  reset_success_updates_state envAllOk initialState (by decide) (by decide)

/-- C3: when the seed file is absent, `reset_database` returns a failure
result carrying the descriptive message of line 99, does not raise, and
leaves the state (both counters) unchanged. -/
theorem reset_missing_seed_fails_unchanged (env : Env) (s : ResetState)
    (hseed : env.seedFile = none) :
    reset_database env s
      = ((false, "init.sql not found at " ++ INIT_SQL_PATH), s) := by
  simp [reset_database, hseed]

/-- C3, witness: the theorem applied to a run with no seed file. -/
theorem reset_missing_seed_fails_unchanged_witness :
    reset_database envNoSeed initialState
      = ((false, "init.sql not found at " ++ INIT_SQL_PATH), initialState) :=
  reset_missing_seed_fails_unchanged envNoSeed initialState rfl

/-- C4: statements whose execution raises a `pymysql.Error` are logged and
skipped while the loop continues (the loop record ends with no escaped
exception and executed plus skipped statements together exhaust the
executable segments); when connect, commit and close all succeed, such a
run still reports success and increments `resetCount` by one. -/
theorem statement_errors_skipped_still_success (env : Env) (s : ResetState)
    (text : String)
    (hseed : env.seedFile = some text)
    (hconn : env.connect = DbOutcome.ok)
    (hcommit : env.commit = DbOutcome.ok)
    (hclose : env.close = DbOutcome.ok)
    (hexec : ∀ i st m, env.exec i st ≠ DbOutcome.raise (PyErr.other m)) :
    (reset_database env s).1.1 = true
    ∧ (reset_database env s).2.resetCount = s.resetCount + 1
    ∧ (resetLog env).err = none
    ∧ (resetLog env).executed.length + (resetLog env).skipped.length
        = (claimSegments text).length := by
  have herr := runStatements_err_none env hexec 1 (splitStatements text)
  have hcount := runStatements_count env hexec 1 (splitStatements text)
  have hlog : resetLog env = runStatements env 1 (splitStatements text) := by
    simp [resetLog, hseed]
  have h2 : (splitStatements text).filter isExecutable = claimSegments text := by
    unfold splitStatements claimSegments
    exact filter_noncomment _
  refine ⟨?_, ?_, ?_, ?_⟩
  · simp [reset_database, hseed, hconn, herr, hcommit, hclose]
  · simp [reset_database, hseed, hconn, herr, hcommit, hclose]
  · rw [hlog]
    exact herr
  · rw [hlog, hcount, h2]

/-- C4, witness: the three-statement seed file whose `USE db` statement
raises; the run reports success with two statements executed, one skipped,
and the counter incremented. -/
theorem statement_errors_skipped_still_success_witness :
    (reset_database env4 initialState).1.1 = true
    ∧ (reset_database env4 initialState).2.resetCount
        = initialState.resetCount + 1
    ∧ (resetLog env4).err = none
    ∧ (resetLog env4).executed.length + (resetLog env4).skipped.length
        = (claimSegments
            "CREATE TABLE t (x INT);USE db;INSERT INTO t VALUES (1);").length :=
  statement_errors_skipped_still_success env4 initialState
    "CREATE TABLE t (x INT);USE db;INSERT INTO t VALUES (1);" rfl rfl rfl rfl
    (by
      intro i st m h
      simp only [env4, env4exec] at h
      split at h <;> simp_all)

/-- C5: for every behavior of the database collaborator and every state,
`reset_database` equals the total handler applied to its
exception-propagating body: every exception the body can raise (connection
failure, a non-`pymysql.Error` statement failure, commit failure, close
failure) is converted into a `(false, message)` pair, and nothing else
changes — no exception escapes to the caller. -/
theorem reset_database_converts_all_failures (env : Env) (s : ResetState) :
    reset_database env s =
      (match reset_database_body env s with
       | (Except.ok r, s2) => (r, s2)
       | (Except.error e, s2) => ((false, errMsg e), s2)) := by
  rcases hseed : env.seedFile with _ | script
  · simp [reset_database, reset_database_body, hseed]
  · rcases hconn : env.connect with _ | e1
    · rcases herr : (runStatements env 1 (splitStatements script)).err with _ | e0
      · rcases hcom : env.commit with _ | e2
        · rcases hcl : env.close with _ | e3 <;>
            simp [reset_database, reset_database_body, hseed, hconn, herr, hcom, hcl]
        · rcases hcl : env.close with _ | e3 <;>
            simp [reset_database, reset_database_body, hseed, hconn, herr, hcom, hcl]
      · rcases hcl : env.close with _ | e3 <;>
          simp [reset_database, reset_database_body, hseed, hconn, herr, hcl]
    · simp [reset_database, reset_database_body, hseed, hconn]

/-- C6: the `POST /reset` handler answers 200 with status "success", the
message, the updated `reset_count` and the new timestamp when the reset
succeeds, and 500 with status "error" and the message (and no counter
fields) when it fails. -/
theorem manual_reset_response_contract (env : Env) (s : ResetState) :
    ((reset_database env s).1.1 = true →
      manual_reset env s =
        (({ status := "success",
            message := (reset_database env s).1.2,
            reset_count := some (s.resetCount + 1),
            timestamp := some (isoformat env.now) }, 200),
          (reset_database env s).2))
    ∧ ((reset_database env s).1.1 = false →
      manual_reset env s =
        (({ status := "error",
            message := (reset_database env s).1.2,
            reset_count := none,
            timestamp := none }, 500),
          (reset_database env s).2)) := by
  constructor
  · intro h
    have h2 := reset_success_inv env s h
    simp [manual_reset, h, h2, isoformat]
  · intro h
    simp [manual_reset, h]

/-- C6, witness: the success branch of the contract on an error-free run. -/
theorem manual_reset_response_contract_witness :
    (reset_database envAllOk initialState).1.1 = true
    ∧ manual_reset envAllOk initialState =
        (({ status := "success",
            message := (reset_database envAllOk initialState).1.2,
            reset_count := some (initialState.resetCount + 1),
            timestamp := some (isoformat envAllOk.now) }, 200),
          (reset_database envAllOk initialState).2) :=
  ⟨by decide, (manual_reset_response_contract envAllOk initialState).1 (by decide)⟩

/-- C7: in the initial process state `GET /health` reports
`last_reset = "Never"` and `reset_count = 0`, and in every state it answers
with code 200. -/
theorem health_initial_never_and_always_200 (now : Nat) (s : ResetState) :
    (health_check now s).1.2 = 200
    ∧ (health_check now initialState).1.1.last_reset = "Never"
    ∧ (health_check now initialState).1.1.reset_count = 0 :=
  ⟨rfl, rfl, rfl⟩

/-- C8: the `GET /health` handler is read-only — it returns the state it
was given unchanged — and the only state change a `POST /reset` request
makes is the one performed inside `reset_database` itself, so `ResetState`
is mutated only inside the Reset Executor. -/
theorem health_readonly_mutation_confined (env : Env) (now : Nat)
    (s : ResetState) :
    (health_check now s).2 = s
    ∧ (manual_reset env s).2 = (reset_database env s).2 := by
  constructor
  · rfl
  · rcases h : (reset_database env s).1.1 <;> simp [manual_reset, h]

/-- C9: when every connection attempt fails, startup makes exactly 30
attempts, sleeps 2 seconds between consecutive attempts (58 seconds in
total over the 29 gaps), and the process exits with status 1; when some
attempt in the budget succeeds, the retry loop reports success and startup
proceeds without exiting. -/
theorem startup_retry_budget (c : Nat → Bool) :
    ((∀ i, c i = false) →
      wait_for_database c = (false, 30, 58) ∧ main_startup c = some 1)
    ∧ (∀ k, 1 ≤ k → k ≤ 30 → c k = true →
      (wait_for_database c).1 = true ∧ main_startup c = none) := by
  constructor
  · intro hall
    have hlen : (List.range' 1 30).length = 30 := by decide
    have hsleep : sleepSum 2 30 (List.range' 1 30) = 58 := by decide
    have h1 : wait_for_database c = (false, 30, 58) := by
      rw [wait_for_database, wait_go_all_fail c 2 30 _ (fun a _ => hall a),
        hlen, hsleep]
    refine ⟨h1, ?_⟩
    simp [main_startup, h1]
  · intro k hk1 hk30 hck
    have hmem : k ∈ List.range' 1 30 := List.mem_range'_1.mpr ⟨hk1, by omega⟩
    have h1 : (wait_for_database c).1 = true :=
      wait_go_first_success c 2 30 _ ⟨k, hmem, hck⟩
    refine ⟨h1, ?_⟩
    simp [main_startup, h1]

/-- C9, witness: both branches of the startup contract at concrete
connection behaviors — one that always fails, one that succeeds at the
third attempt. -/
theorem startup_retry_budget_witness :
    (wait_for_database (fun _ => false) = (false, 30, 58)
      ∧ main_startup (fun _ => false) = some 1)
    ∧ ((wait_for_database (fun i => i == 3)).1 = true
      ∧ main_startup (fun i => i == 3) = none) :=
  ⟨(startup_retry_budget (fun _ => false)).1 (fun _ => rfl),
   (startup_retry_budget (fun i => i == 3)).2 3 (by decide) (by decide)
     (by decide)⟩

/-- C10, counterexample: a run in which everything through commit succeeds
and only the final `connection.close` of the `finally` clause raises.
`reset_database` returns a failure result, yet `resetCount` was already
incremented (and `lastResetTime` set) at lines 136 and 137 before the
close ran: a failure result does not imply the state is unchanged. -/
theorem close_failure_after_commit_counterexample :
    (reset_database envCloseFail initialState).1.1 = false
    ∧ (reset_database envCloseFail initialState).2 ≠ initialState
    ∧ (reset_database envCloseFail initialState).2.resetCount
        = initialState.resetCount + 1 :=
  ⟨by decide, by decide, by decide⟩

/-- C10, amended: every failure result leaves the state unchanged, except
in the one late-failure case: when commit succeeded and only the final
connection close raised, the failure result is returned with `resetCount`
already incremented and `lastResetTime` already set. -/
theorem reset_failure_state_characterization (env : Env) (s : ResetState)
    (hfail : (reset_database env s).1.1 = false) :
    (reset_database env s).2 = s
    ∨ ((reset_database env s).2 =
         { lastResetTime := some env.now, resetCount := s.resetCount + 1 }
       ∧ env.commit = DbOutcome.ok
       ∧ env.close ≠ DbOutcome.ok) := by
  rcases hseed : env.seedFile with _ | script
  · left
    simp [reset_database, hseed]
  · rcases hconn : env.connect with _ | e1
    · rcases herr : (runStatements env 1 (splitStatements script)).err with _ | e0
      · rcases hcom : env.commit with _ | e2
        · rcases hcl : env.close with _ | e3
          · simp [reset_database, hseed, hconn, herr, hcom, hcl] at hfail
          · right
            refine ⟨?_, rfl, ?_⟩
            · simp [reset_database, hseed, hconn, herr, hcom, hcl]
            · simp [hcl]
        · left
          rcases hcl : env.close with _ | e3 <;>
            simp [reset_database, hseed, hconn, herr, hcom, hcl]
      · left
        rcases hcl : env.close with _ | e3 <;>
          simp [reset_database, hseed, hconn, herr, hcl]
    · left
      simp [reset_database, hseed, hconn]

/-- C10, witness: the amended characterization applied to the close-failure
run. -/
theorem reset_failure_state_characterization_witness :
    (reset_database envCloseFail initialState).2 = initialState
    ∨ ((reset_database envCloseFail initialState).2 =
         { lastResetTime := some envCloseFail.now,
           resetCount := initialState.resetCount + 1 }
       ∧ envCloseFail.commit = DbOutcome.ok
       ∧ envCloseFail.close ≠ DbOutcome.ok) :=
  reset_failure_state_characterization envCloseFail initialState (by decide)

end GameServer
